import Mathlib

/-!
Shallow embedding of the event-acquisition and dispatch engine of
`cgrulesengd.c` (the cgroup rules engine daemon): the credential resolver
and dispatcher (`cgre_process_event`), the event classifier
(`cgre_handle_msg`), and the netlink receive/frame-extraction loop
(`cgre_create_netlink_socket_process_msg`).

Modelling conventions:
* C `int`/`uid_t`/`gid_t` values are `Int` (no arithmetic is performed on
  them, only comparison and copying, so overflow is irrelevant);
* `size_t` quantities are `Nat`, with the one signed-to-unsigned
  conversion (`recv_len = recvfrom(...)`) made explicit as `% 2^64`;
* the `/proc/<pid>/status` file is a function `Int → Option (List (List Char))`:
  `none` means `fopen` fails, `some lines` is the file as the list of lines
  `fgets` would deliver;
* the external policy engine `cgroup_change_cgroup_uid_gid_flags` is an
  oracle `Int → Int → Int → Int → Int` (uid, gid, pid, flags ↦ return code);
* the C locals `ruid, euid, suid, fsuid, rgid, egid, sgid, fsgid` are
  declared without initialisers; their indeterminate initial contents are
  threaded explicitly as an `Uninit` record, so the model exposes exactly
  which dispatches depend on uninitialised data.
-/

/-! ## Constants from the kernel headers and libcgroup.h -/

/-- Constant `PROC_EVENT_UID` from `<linux/cn_proc.h>`. -/
def PROC_EVENT_UID : Nat := 0x00000004

/-- Constant `PROC_EVENT_GID` from `<linux/cn_proc.h>`. -/
def PROC_EVENT_GID : Nat := 0x00000040

/-- Constant `CGFLAG_USECACHE` from `libcgroup.h`. -/
def CGFLAG_USECACHE : Int := 1

/-- Constant `NLMSG_NOOP` from `<linux/netlink.h>`. -/
def NLMSG_NOOP : Nat := 1

/-- Constant `NLMSG_ERROR` from `<linux/netlink.h>`. -/
def NLMSG_ERROR : Nat := 2

/-- Constant `NLMSG_DONE` from `<linux/netlink.h>`. -/
def NLMSG_DONE : Nat := 3

/-- Constant `NLMSG_OVERRUN` from `<linux/netlink.h>`. -/
def NLMSG_OVERRUN : Nat := 4

/-- Value of `sizeof(struct nlmsghdr)`: 16 on all Linux targets. -/
def NLMSG_HDR_SIZE : Nat := 16

/-- Macro `NLMSG_ALIGN(len)` with `NLMSG_ALIGNTO = 4`. -/
def nlmsgAlign (n : Nat) : Nat := (n + 3) / 4 * 4

/-- Constant `ENOBUFS` on Linux (the value `recv_len` is compared against). -/
def ENOBUFS : Nat := 105

/-! ## Data model -/

/-- The `id` member of `event_data` in `struct proc_event`: for a UID event
`r`/`e` are `ruid`/`euid`, for a GID event they are `rgid`/`egid` (the C
union overlays them at the same offsets). -/
structure ProcEventId where
  process_pid : Int
  process_tgid : Int
  r : Int
  e : Int
  deriving Repr, DecidableEq

/-- Record `struct proc_event` as far as this daemon reads it: the `what`
discriminant and the id record. -/
structure ProcEvent where
  what : Nat
  id : ProcEventId
  deriving Repr, DecidableEq

/-- Indeterminate initial contents of the uninitialised C locals in
`cgre_process_event`. -/
structure Uninit where
  ruid : Int
  euid : Int
  suid : Int
  fsuid : Int
  rgid : Int
  egid : Int
  sgid : Int
  fsgid : Int
  deriving Repr, DecidableEq

/-- Observable outcome of one `cgre_process_event`/`cgre_handle_msg` call:
the reassignment requests issued to the policy engine (uid, gid, pid,
flags), the C return value, whether `/proc/<pid>/status` was opened
(attempted), how many lines `fgets` delivered, and the values held by the
four scanned credential locals after the scan phase. -/
structure ProcResult where
  requests : List (Int × Int × Int × Int)
  ret : Int
  lookupAttempted : Bool
  linesRead : Nat
  creds : Int × Int × Int × Int
  deriving Repr, DecidableEq

/-! ## sscanf "%d%d%d%d" model -/

/-- Predicate `isspace` for the C locale. -/
def isSpaceC (c : Char) : Bool :=
  c = ' ' || c = '\t' || c = '\n' || c = '\x0b' || c = '\x0c' || c = '\r'

/-- ASCII decimal digit. -/
def isDigitC (c : Char) : Bool := '0' ≤ c && c ≤ '9'

/-- Longest prefix of decimal digits and the remainder. -/
def takeDigits : List Char → List Char × List Char
  | [] => ([], [])
  | c :: cs =>
    if isDigitC c then
      let (d, r) := takeDigits cs
      (c :: d, r)
    else ([], c :: cs)

/-- Value of a digit string. -/
def digitsToInt (ds : List Char) : Int :=
  ds.foldl (fun a c => a * 10 + ((c.toNat : Int) - 48)) 0

/-- One `%d` conversion: skip whitespace, optional sign, at least one
digit; `none` on matching failure. -/
def scanIntC (s : List Char) : Option (Int × List Char) :=
  let s1 := s.dropWhile isSpaceC
  match s1 with
  | '-' :: rest =>
    match takeDigits rest with
    | ([], _) => none
    | (ds, r) => some (-(digitsToInt ds), r)
  | '+' :: rest =>
    match takeDigits rest with
    | ([], _) => none
    | (ds, r) => some (digitsToInt ds, r)
  | other =>
    match takeDigits other with
    | ([], _) => none
    | (ds, r) => some (digitsToInt ds, r)

/-- Model of `sscanf(s, "%d%d%d%d", &v1, &v2, &v3, &v4)`: conversions are applied in
order, stopping at the first matching failure; arguments beyond the last
successful conversion keep their previous (possibly indeterminate)
contents. -/
def sscanf4 (s : List Char) (v1 v2 v3 v4 : Int) : Int × Int × Int × Int :=
  match scanIntC s with
  | none => (v1, v2, v3, v4)
  | some (a, r1) =>
    match scanIntC r1 with
    | none => (a, v2, v3, v4)
    | some (b, r2) =>
      match scanIntC r2 with
      | none => (a, b, v3, v4)
      | some (c, r3) =>
        match scanIntC r3 with
        | none => (a, b, c, v4)
        | some (d, _) => (a, b, c, d)

/-! ## Credential resolver scan -/

/-- The `while (fgets(buf, 4096, f)) { if (!strncmp(buf, label, 4)) { ...;
break; } }` loop: returns the first line whose first four characters equal
`label` (or `none` at end-of-input) together with the number of lines
`fgets` delivered before the loop stopped. -/
def scanStatus (label : List Char) : List (List Char) → Option (List Char) × Nat
  | [] => (none, 0)
  | l :: ls =>
    if l.take 4 = label then (some l, 1)
    else
      let (r, n) := scanStatus label ls
      (r, n + 1)

/-! ## cgre_process_event -/

/-- Embedding of `cgre_process_event(ev, type)`.

`engine` is `cgroup_change_cgroup_uid_gid_flags`; `proc` maps a pid to the
lines of its `/proc/<pid>/status` (or `none` when `fopen` fails); `u`
holds the indeterminate initial contents of the uninitialised locals.
`calloc` is assumed to succeed (its failure branch only turns `errno` into
the return value and issues no request). -/
def cgre_process_event (engine : Int → Int → Int → Int → Int)
    (proc : Int → Option (List (List Char))) (u : Uninit)
    (ev : ProcEvent) (type : Nat) : ProcResult :=
  match proc ev.id.process_pid with
  | none =>
    { requests := [], ret := 0, lookupAttempted := true, linesRead := 0,
      creds := (0, 0, 0, 0) }
  | some lines =>
    if type = PROC_EVENT_UID then
      let (found, n) := scanStatus ['G', 'i', 'd', ':'] lines
      let (rgid, egid, sgid, fsgid) :=
        match found with
        | some l => sscanf4 (l.drop 5) u.rgid u.egid u.sgid u.fsgid
        | none => (u.rgid, u.egid, u.sgid, u.fsgid)
      let ret := engine ev.id.e egid ev.id.process_pid CGFLAG_USECACHE
      { requests := [(ev.id.e, egid, ev.id.process_pid, CGFLAG_USECACHE)],
        ret := ret, lookupAttempted := true, linesRead := n,
        creds := (rgid, egid, sgid, fsgid) }
    else if type = PROC_EVENT_GID then
      let (found, n) := scanStatus ['U', 'i', 'd', ':'] lines
      let (ruid, euid, suid, fsuid) :=
        match found with
        | some l => sscanf4 (l.drop 5) u.ruid u.euid u.suid u.fsuid
        | none => (u.ruid, u.euid, u.suid, u.fsuid)
      let ret := engine euid ev.id.e ev.id.process_pid CGFLAG_USECACHE
      { requests := [(euid, ev.id.e, ev.id.process_pid, CGFLAG_USECACHE)],
        ret := ret, lookupAttempted := true, linesRead := n,
        creds := (ruid, euid, suid, fsuid) }
    else
      { requests := [], ret := 0, lookupAttempted := true, linesRead := 0,
        creds := (0, 0, 0, 0) }

/-! ## cgre_handle_msg -/

/-- Embedding of `cgre_handle_msg(cn_hdr)`: classify the event by its
`what` discriminant and forward UID/GID events to `cgre_process_event`;
every other kind is ignored (return 0, no lookup). -/
def cgre_handle_msg (engine : Int → Int → Int → Int → Int)
    (proc : Int → Option (List (List Char))) (u : Uninit)
    (ev : ProcEvent) : ProcResult :=
  if ev.what = PROC_EVENT_UID then
    cgre_process_event engine proc u ev PROC_EVENT_UID
  else if ev.what = PROC_EVENT_GID then
    cgre_process_event engine proc u ev PROC_EVENT_GID
  else
    { requests := [], ret := 0, lookupAttempted := false, linesRead := 0,
      creds := (0, 0, 0, 0) }

/-! ## The netlink receive loop of cgre_create_netlink_socket_process_msg -/

/-- One netlink message as laid out in the receive buffer: the header's
`nlmsg_len` and `nlmsg_type` fields, and the decoded `struct proc_event`
reachable through `NLMSG_DATA`/`cn_msg->data` (the byte-level layout of
the connector payload is not itself modelled; the decode is fixed-layout
and infallible per the kernel headers). -/
structure NlFrame where
  nlmsg_len : Nat
  nlmsg_type : Nat
  event : ProcEvent
  deriving Repr, DecidableEq

/-- Macro `NLMSG_OK(nlh, len)` at a position holding the frames `frames`:
`len >= sizeof(struct nlmsghdr) && nlh->nlmsg_len >= sizeof(struct
nlmsghdr) && nlh->nlmsg_len <= len`.  A zero-filled buffer position (no
frame written there) has `nlmsg_len = 0`, so it is represented by a head
frame with `nlmsg_len = 0` — or by the empty list, which also fails the
check since there is no header to satisfy it. -/
def nlmsgOk (frames : List NlFrame) (len : Nat) : Bool :=
  match frames with
  | [] => false
  | f :: _ =>
    NLMSG_HDR_SIZE ≤ len && NLMSG_HDR_SIZE ≤ f.nlmsg_len && f.nlmsg_len ≤ len

/-- Outcome of the inner `while (NLMSG_OK(...))` frame-extraction loop for
one receive: either the batch finishes and control returns to the next
blocking receive (with the list of `cgre_handle_msg` results, in order),
or `cgre_handle_msg` returned a negative value and control reaches
`close_and_exit`, or the given fuel ran out without the loop terminating. -/
inductive BatchOutcome where
  | nextRecv (handled : List ProcResult)
  | exitLoop (handled : List ProcResult)
  | spin
  deriving Repr, DecidableEq

/-- The inner `while (NLMSG_OK(nlh, recv_len))` loop, fuel-indexed because
the C loop need not terminate (the `NLMSG_NOOP` arm executes `continue`
without advancing `nlh` or `recv_len`).  One fuel unit is one evaluation
of the loop body; `acc` holds the `cgre_handle_msg` results so far in
reverse. -/
def runBatch (engine : Int → Int → Int → Int → Int)
    (proc : Int → Option (List (List Char))) (u : Uninit) :
    Nat → List NlFrame → Nat → List ProcResult → BatchOutcome
  | 0, _, _, _ => .spin
  | fuel + 1, frames, len, acc =>
    if nlmsgOk frames len then
      match frames with
      | [] => .nextRecv acc.reverse
      | f :: rest =>
        if f.nlmsg_type = NLMSG_NOOP then
          runBatch engine proc u fuel (f :: rest) len acc
        else if f.nlmsg_type = NLMSG_ERROR ∨ f.nlmsg_type = NLMSG_OVERRUN then
          .nextRecv acc.reverse
        else
          let res := cgre_handle_msg engine proc u f.event
          if res.ret < 0 then .exitLoop (res :: acc).reverse
          else if f.nlmsg_type = NLMSG_DONE then .nextRecv (res :: acc).reverse
          else
            runBatch engine proc u fuel rest (len - nlmsgAlign f.nlmsg_len)
              (res :: acc)
    else .nextRecv acc.reverse

/-- What one `recvfrom` call produced: the raw return value `r` (an
`ssize_t`) and the frames it wrote into the buffer.  The buffer is
`memset` to zero before every receive, so when `r ≤ 0` (error or empty
datagram) nothing was written and the buffer holds no frame. -/
structure RecvResult where
  r : Int
  frames : List NlFrame
  deriving Repr

/-- One iteration of the outer `for (;;)` receive loop, after `recvfrom`
returned.  `recv_len` is declared `size_t`, so the signed return value is
converted: `recv_len = r mod 2^64`.  The code then tests
`recv_len == ENOBUFS` (the buffer-full log-and-continue arm), then
`recv_len < 1` (unsigned, i.e. `recv_len = 0`), and otherwise runs the
frame-extraction loop. -/
def recvIter (engine : Int → Int → Int → Int → Int)
    (proc : Int → Option (List (List Char))) (u : Uninit)
    (fuel : Nat) (rr : RecvResult) : BatchOutcome :=
  let recv_len : Nat := (rr.r % (2 ^ 64 : Int)).toNat
  if recv_len = ENOBUFS then .nextRecv []
  else if recv_len < 1 then .nextRecv []
  else runBatch engine proc u fuel rr.frames recv_len []

/-- Total buffer space the frames occupy when laid back-to-back:
each frame is followed by padding to the next `NLMSG_ALIGN` boundary. -/
def framesLen : List NlFrame → Nat
  | [] => 0
  | f :: rest => nlmsgAlign f.nlmsg_len + framesLen rest

/-- A frame of the ordinary event kind: its type is none of the four
control types that the loop treats specially (`NLMSG_NOOP` skipped
in place, `NLMSG_ERROR`/`NLMSG_OVERRUN` end the batch, `NLMSG_DONE`
ends the batch after being handled). -/
def normalFrame (f : NlFrame) : Prop :=
  f.nlmsg_type ≠ NLMSG_NOOP ∧ f.nlmsg_type ≠ NLMSG_ERROR ∧
  f.nlmsg_type ≠ NLMSG_OVERRUN ∧ f.nlmsg_type ≠ NLMSG_DONE

instance (f : NlFrame) : Decidable (normalFrame f) := by
  unfold normalFrame; infer_instance

/-! ## Concrete fixtures -/

/-- The Gid line of the scenario in the spec and C1. -/
def gidLineEx : List Char := "Gid: 30 40 30 30".data

/-- The UID_CHANGE event of the scenario in the spec and C1:
pid 100, tgid 100, ruid 1000, euid 2000. -/
def evUidEx : ProcEvent := ⟨PROC_EVENT_UID, ⟨100, 100, 1000, 2000⟩⟩

/-- A GID_CHANGE event (pid 55, tgid 55, rgid 10, egid 20), as in the
spec's end-to-end scenario. -/
def evGidEx : ProcEvent := ⟨PROC_EVENT_GID, ⟨55, 55, 10, 20⟩⟩

/-- All-zero initial contents for the uninitialised locals. -/
def uZero : Uninit := ⟨0, 0, 0, 0, 0, 0, 0, 0⟩

/-- A policy engine that always succeeds. -/
def engineZero : Int → Int → Int → Int → Int := fun _ _ _ _ => 0

/-- A proc filesystem with a single process, pid 100, whose status record
is just the Gid line of the C1 scenario. -/
def procEx : Int → Option (List (List Char)) :=
  fun p => if p = 100 then some [gidLineEx] else none

/-- A status line that matches neither "Uid:" nor "Gid:". -/
def nameLineEx : List Char := ['N', 'a', 'm', 'e', ':', '\t', 'f', 'o', 'o']

example : scanStatus ['G', 'i', 'd', ':'] [gidLineEx] = (some gidLineEx, 1) := by
  decide

example : sscanf4 (gidLineEx.drop 5) 9 9 9 9 = (30, 40, 30, 30) := by decide

/-! ## Helper lemmas -/

/-- Alignment never shrinks a length. -/
lemma le_nlmsgAlign (n : Nat) : n ≤ nlmsgAlign n := by
  unfold nlmsgAlign; omega

/-- If no line of the record starts with the label, the resolver scan
reads the whole record and finds nothing. -/
lemma scanStatus_no_match (label : List Char) :
    ∀ lines : List (List Char), (∀ l ∈ lines, l.take 4 ≠ label) →
      scanStatus label lines = (none, lines.length)
  | [], _ => rfl
  | l :: ls, h => by
    have hl : l.take 4 ≠ label := h l (List.mem_cons_self l ls)
    have ih := scanStatus_no_match label ls (fun l' hl' => h l' (List.mem_cons_of_mem l hl'))
    simp [scanStatus, hl, ih]

/-- The resolver scan stops at the first line starting with the label,
returning that line and having read exactly the lines up to and
including it. -/
lemma scanStatus_first_match (label : List Char) :
    ∀ (pre : List (List Char)) (l : List Char) (post : List (List Char)),
      (∀ l' ∈ pre, l'.take 4 ≠ label) → l.take 4 = label →
      scanStatus label (pre ++ l :: post) = (some l, pre.length + 1)
  | [], l, post, _, hl => by simp [scanStatus, hl]
  | p :: ps, l, post, hpre, hl => by
    have hp : p.take 4 ≠ label := hpre p (List.mem_cons_self p ps)
    have ih := scanStatus_first_match label ps l post
      (fun l' hl' => hpre l' (List.mem_cons_of_mem p hl')) hl
    simp [scanStatus, hp, ih]

/-! ## C1 -/

/-- C1: for a UID_CHANGE event with pid=100, tgid=100, ruid=1000,
euid=2000, if the status record for pid 100 contains the line
"Gid: 30 40 30 30" (as its first line starting with "Gid:"), then
processing the event issues exactly one reassignment request to the policy
engine, with uid=2000 (the event's effective uid), gid=40 (the second
integer of the snapshot's Gid line), pid=100, and the cache-assisted
flag. -/
theorem uid_event_dispatches_snapshot_egid
    (engine : Int → Int → Int → Int → Int)
    (proc : Int → Option (List (List Char))) (u : Uninit)
    (pre post : List (List Char))
    (hpre : ∀ l ∈ pre, l.take 4 ≠ ['G', 'i', 'd', ':'])
    (hproc : proc 100 = some (pre ++ gidLineEx :: post)) :
    (cgre_handle_msg engine proc u evUidEx).requests =
      [(2000, 40, 100, CGFLAG_USECACHE)] := by
  have hscan := scanStatus_first_match ['G', 'i', 'd', ':'] pre gidLineEx post
    hpre (by decide)
  have hparse : ∀ a b c d : Int,
      sscanf4 (gidLineEx.drop 5) a b c d = (30, 40, 30, 30) := fun a b c d => rfl
  simp [cgre_handle_msg, cgre_process_event, evUidEx, hproc, hscan, hparse,
    PROC_EVENT_UID, PROC_EVENT_GID]

/-- Closed witness for C1 at the concrete record consisting of exactly the
line "Gid: 30 40 30 30". -/
theorem uid_event_dispatches_snapshot_egid_witness :
    (∀ l ∈ ([] : List (List Char)), l.take 4 ≠ ['G', 'i', 'd', ':']) ∧
    procEx 100 = some ([] ++ gidLineEx :: []) ∧
    (cgre_handle_msg engineZero procEx uZero evUidEx).requests =
      [(2000, 40, 100, CGFLAG_USECACHE)] :=
  ⟨by simp, by rfl,
    uid_event_dispatches_snapshot_egid engineZero procEx uZero [] []
      (by simp) (by rfl)⟩

/-! ## C2 -/

/-- C2 (code bug): when the status record opens but contains no line
starting with the expected label, the code does NOT drop the event — it
still issues one reassignment request, whose complementary credential is
the uninitialised local (`egid` for a UID_CHANGE event, `euid` for a
GID_CHANGE event).  The spec says the lookup fails as NotFound and no
request is issued; the code's scan loop merely runs to end-of-input
without a `break`, leaves the credential locals untouched, and falls
through to the dispatch switch.  Evaluated here at the failing inputs:
the C1 event (pid 100, euid 2000) and the spec's GID event (pid 55,
egid 20), each with a status record whose only line is "Name:\tfoo". -/
theorem missing_label_still_dispatches
    (engine : Int → Int → Int → Int → Int) (u : Uninit) :
    (cgre_handle_msg engine (fun _ => some [nameLineEx]) u evUidEx).requests =
      [(2000, u.egid, 100, CGFLAG_USECACHE)] ∧
    (cgre_handle_msg engine (fun _ => some [nameLineEx]) u evGidEx).requests =
      [(u.euid, 20, 55, CGFLAG_USECACHE)] := by
  constructor <;> rfl

/-! ## Frame-extraction loop lemmas -/

/-- Generalised extraction lemma: over a buffer of back-to-back,
structurally sound frames of the ordinary event kind whose handling
returns nonnegative codes, the loop handles every frame in order,
consuming the (aligned) declared length of each, and then returns to the
next receive. -/
lemma runBatch_normal_frames (engine : Int → Int → Int → Int → Int)
    (proc : Int → Option (List (List Char))) (u : Uninit) :
    ∀ (frames : List NlFrame) (extra : Nat) (acc : List ProcResult),
      (∀ f ∈ frames, NLMSG_HDR_SIZE ≤ f.nlmsg_len ∧ normalFrame f ∧
        0 ≤ (cgre_handle_msg engine proc u f.event).ret) →
      runBatch engine proc u (frames.length + 1 + extra) frames
          (framesLen frames) acc =
        .nextRecv (acc.reverse ++
          frames.map fun f => cgre_handle_msg engine proc u f.event)
  | [], extra, acc, _ => by
    have h1 : ([] : List NlFrame).length + 1 + extra = extra + 1 := by
      simp only [List.length_nil]; omega
    rw [h1]
    simp [runBatch, nlmsgOk, framesLen]
  | f :: rest, extra, acc, h => by
    obtain ⟨hlen, hnorm, hret⟩ := h f (List.mem_cons_self f rest)
    have ih := runBatch_normal_frames engine proc u rest extra
      (cgre_handle_msg engine proc u f.event :: acc)
      (fun g hg => h g (List.mem_cons_of_mem f hg))
    have hfuel : (f :: rest).length + 1 + extra =
        (rest.length + 1 + extra) + 1 := by
      simp only [List.length_cons]; omega
    have hok : nlmsgOk (f :: rest) (framesLen (f :: rest)) = true := by
      have halign := le_nlmsgAlign f.nlmsg_len
      simp only [nlmsgOk, framesLen, Bool.and_eq_true, decide_eq_true_eq]
      refine ⟨⟨by omega, hlen⟩, by omega⟩
    have hsub : framesLen (f :: rest) - nlmsgAlign f.nlmsg_len =
        framesLen rest := by
      simp only [framesLen]; omega
    have hret' : ¬ (cgre_handle_msg engine proc u f.event).ret < 0 :=
      not_lt.mpr hret
    rw [hfuel]
    simp only [runBatch, hok, if_true, hnorm.1, hnorm.2.1, hnorm.2.2.1,
      hnorm.2.2.2, if_false, hret', or_self, ite_false, hsub, ih]
    simp

/-- No-exit lemma: when every event's handling returns a nonnegative
code, the frame-extraction loop never reaches `close_and_exit`. -/
lemma runBatch_no_exit (engine : Int → Int → Int → Int → Int)
    (proc : Int → Option (List (List Char))) (u : Uninit)
    (hret : ∀ ev : ProcEvent, 0 ≤ (cgre_handle_msg engine proc u ev).ret) :
    ∀ (fuel : Nat) (frames : List NlFrame) (len : Nat)
      (acc handled : List ProcResult),
      runBatch engine proc u fuel frames len acc ≠ .exitLoop handled
  | 0, frames, len, acc, handled => by simp [runBatch]
  | fuel + 1, frames, len, acc, handled => by
    rcases frames with _ | ⟨f, rest⟩
    · simp [runBatch, nlmsgOk]
    · have h0 : ¬ (cgre_handle_msg engine proc u f.event).ret < 0 :=
        not_lt.mpr (hret f.event)
      by_cases hok : nlmsgOk (f :: rest) len
      · by_cases h1 : f.nlmsg_type = NLMSG_NOOP
        · simpa [runBatch, hok, h1] using
            runBatch_no_exit engine proc u hret fuel (f :: rest) len acc handled
        · by_cases h2 : f.nlmsg_type = NLMSG_ERROR ∨ f.nlmsg_type = NLMSG_OVERRUN
          · simp [runBatch, hok, h1, h2]
          · by_cases h3 : f.nlmsg_type = NLMSG_DONE
            · simp [runBatch, hok, h1, h2, h3, h0, NLMSG_NOOP, NLMSG_ERROR,
                NLMSG_DONE, NLMSG_OVERRUN]
            · simpa [runBatch, hok, h1, h2, h3, h0] using
                runBatch_no_exit engine proc u hret fuel rest
                  (len - nlmsgAlign f.nlmsg_len)
                  (cgre_handle_msg engine proc u f.event :: acc) handled
      · simp [runBatch, hok]

/-! ## C3 -/

/-- C3: a successful receive whose buffer consists of N back-to-back,
structurally sound netlink envelopes of the ordinary event kind (type not
one of NLMSG_NOOP / NLMSG_ERROR / NLMSG_OVERRUN / NLMSG_DONE, declared
length at least a header) is split into exactly those N frames, handled
in buffer order, the loop consuming the aligned declared length of each
frame before considering the next, and then returns for the next receive
(given that no handling returns a negative code, which would end the loop
— see C4). -/
theorem batch_extracts_all_frames (engine : Int → Int → Int → Int → Int)
    (proc : Int → Option (List (List Char))) (u : Uninit)
    (frames : List NlFrame) (fuel : Nat)
    (hframes : ∀ f ∈ frames, NLMSG_HDR_SIZE ≤ f.nlmsg_len ∧ normalFrame f ∧
      0 ≤ (cgre_handle_msg engine proc u f.event).ret)
    (hfuel : frames.length + 1 ≤ fuel) :
    runBatch engine proc u fuel frames (framesLen frames) [] =
      .nextRecv (frames.map fun f => cgre_handle_msg engine proc u f.event) := by
  obtain ⟨extra, rfl⟩ := Nat.exists_eq_add_of_le hfuel
  simpa using runBatch_normal_frames engine proc u frames extra [] hframes

/-- An ordinary-kind frame (type 16 = NLMSG_MIN_TYPE) carrying the C1
UID event. -/
def frameUidEx : NlFrame := ⟨76, 16, evUidEx⟩

/-- An ordinary-kind frame carrying the GID event. -/
def frameGidEx : NlFrame := ⟨76, 16, evGidEx⟩

/-- Closed witness for C3: a two-frame batch is handled as exactly those
two frames, in order. -/
theorem batch_extracts_all_frames_witness :
    (∀ f ∈ [frameUidEx, frameGidEx],
      NLMSG_HDR_SIZE ≤ f.nlmsg_len ∧ normalFrame f ∧
      0 ≤ (cgre_handle_msg engineZero procEx uZero f.event).ret) ∧
    [frameUidEx, frameGidEx].length + 1 ≤ 3 ∧
    runBatch engineZero procEx uZero 3 [frameUidEx, frameGidEx]
        (framesLen [frameUidEx, frameGidEx]) [] =
      .nextRecv ([frameUidEx, frameGidEx].map
        fun f => cgre_handle_msg engineZero procEx uZero f.event) :=
  ⟨by decide, by decide,
    batch_extracts_all_frames engineZero procEx uZero
      [frameUidEx, frameGidEx] 3 (by decide) (by decide)⟩

/-! ## C4 -/

/-- A policy engine that always fails with a negative code. -/
def engineNeg : Int → Int → Int → Int → Int := fun _ _ _ _ => -1

/-- An NLMSG_DONE frame carrying the C1 UID event, as the proc connector
actually emits events. -/
def frameDoneEx : NlFrame := ⟨76, NLMSG_DONE, evUidEx⟩

/-- Counterexample to C4 as stated: a NEGATIVE code returned by the policy
engine's reassignment entry point does abort the receive loop.  With the
engine returning -1, handling the single frame makes `cgre_handle_msg`
return -1, and the loop takes `goto close_and_exit` instead of proceeding
to the next frame or receive. -/
theorem negative_engine_code_exits_loop :
    runBatch engineNeg procEx uZero 2 [frameDoneEx] 76 [] =
      .exitLoop [cgre_handle_msg engineNeg procEx uZero evUidEx] := by
  rfl

/-- C4 as amended: a nonnegative result code returned by the policy
engine's reassignment entry point (every failure the code's own contract
"0 on success, > 0 on failure" contemplates) is logged but never causes
the receive loop to exit; only a negative return reaches the
`goto close_and_exit` arm (see the counterexample). -/
theorem nonneg_per_event_failures_never_exit_loop
    (engine : Int → Int → Int → Int → Int)
    (proc : Int → Option (List (List Char))) (u : Uninit)
    (hret : ∀ ev : ProcEvent, 0 ≤ (cgre_handle_msg engine proc u ev).ret)
    (fuel : Nat) (frames : List NlFrame) (len : Nat)
    (acc handled : List ProcResult) :
    runBatch engine proc u fuel frames len acc ≠ .exitLoop handled :=
  runBatch_no_exit engine proc u hret fuel frames len acc handled

/-- A policy engine that always fails with the positive code 50001
(ECGOTHER-style), to witness that positive failures do not exit the
loop. -/
def enginePos : Int → Int → Int → Int → Int := fun _ _ _ _ => 50001

/-- When the policy engine never returns a negative code, neither does
`cgre_handle_msg` (its other return paths yield 0). -/
lemma handle_msg_ret_nonneg (engine : Int → Int → Int → Int → Int)
    (proc : Int → Option (List (List Char))) (u : Uninit)
    (heng : ∀ a b c d, 0 ≤ engine a b c d) (ev : ProcEvent) :
    0 ≤ (cgre_handle_msg engine proc u ev).ret := by
  unfold cgre_handle_msg
  split_ifs with h1 h2
  · rcases hp : proc ev.id.process_pid with _ | lines <;>
      simp [cgre_process_event, hp, PROC_EVENT_UID, PROC_EVENT_GID, heng]
  · rcases hp : proc ev.id.process_pid with _ | lines <;>
      simp [cgre_process_event, hp, PROC_EVENT_UID, PROC_EVENT_GID, heng]
  · simp

/-- Closed witness for the amended C4: with an engine failing with a
positive code on every event, a one-frame batch does not exit the loop. -/
theorem nonneg_per_event_failures_never_exit_loop_witness :
    (∀ ev : ProcEvent, 0 ≤ (cgre_handle_msg enginePos procEx uZero ev).ret) ∧
    runBatch enginePos procEx uZero 2 [frameDoneEx] 76 [] ≠
      .exitLoop [cgre_handle_msg enginePos procEx uZero evUidEx] :=
  ⟨handle_msg_ret_nonneg enginePos procEx uZero (fun _ _ _ _ => by norm_num [enginePos]),
   nonneg_per_event_failures_never_exit_loop enginePos procEx uZero
    (handle_msg_ret_nonneg enginePos procEx uZero (fun _ _ _ _ => by norm_num [enginePos]))
    2 [frameDoneEx] 76 [] [cgre_handle_msg enginePos procEx uZero evUidEx]⟩

/-! ## C5 -/

/-- A no-op frame: a minimal-size netlink envelope of type NLMSG_NOOP. -/
def noopFrameEx : NlFrame := ⟨16, NLMSG_NOOP, evUidEx⟩

/-- C5 evaluated at the failing input (code bug): a batch whose first
frame has the no-op type is never advanced past.  The C arm is
`if (nlh->nlmsg_type == NLMSG_NOOP) continue;`, which re-enters the
`while (NLMSG_OK(nlh, recv_len))` test with `nlh` and `recv_len`
unchanged, so the same frame is examined forever: no amount of fuel makes
the loop body terminate, contradicting the claim that the loop skips the
frame, advances to the next one, and terminates. -/
theorem noop_frame_never_advances :
    ∀ (engine : Int → Int → Int → Int → Int)
      (proc : Int → Option (List (List Char))) (u : Uninit)
      (fuel : Nat) (rest : List NlFrame) (acc : List ProcResult),
      runBatch engine proc u fuel (noopFrameEx :: rest) 16 acc = .spin
  | _, _, _, 0, _, _ => rfl
  | engine, proc, u, fuel + 1, rest, acc => by
    have ih := noop_frame_never_advances engine proc u fuel rest acc
    simpa [runBatch, nlmsgOk, noopFrameEx, NLMSG_NOOP, NLMSG_HDR_SIZE] using ih

/-! ## C6 -/

/-- The first netlink header slot of a buffer that `recvfrom` did not
write into: the buffer is `memset` to zero before each receive, so the
slot reads as `nlmsg_len = 0`, `nlmsg_type = 0`. -/
def zeroHdrFrame : NlFrame := ⟨0, 0, ⟨0, ⟨0, 0, 0, 0⟩⟩⟩

/-- C6: a receive returning a zero or negative length produces no frames
and the loop proceeds to the next blocking receive.  `recv_len` is
declared `size_t`, so a negative `recvfrom` return converts to a huge
unsigned value that passes the `recv_len < 1` test, but the zero-filled
buffer's first header has `nlmsg_len = 0`, so `NLMSG_OK` is false at once
and no frame is extracted; a zero return is caught by `recv_len < 1`
directly.  Either way the outcome is `nextRecv []`: no handled frames, on
to the next receive. -/
theorem zero_or_negative_recv_yields_no_frames
    (engine : Int → Int → Int → Int → Int)
    (proc : Int → Option (List (List Char))) (u : Uninit)
    (fuel : Nat) (r : Int) (hfuel : 0 < fuel)
    (hlo : -(2 ^ 63) ≤ r) (hhi : r ≤ 0) :
    recvIter engine proc u fuel ⟨r, [zeroHdrFrame]⟩ = .nextRecv [] := by
  obtain ⟨k, rfl⟩ := Nat.exists_eq_succ_of_ne_zero (Nat.pos_iff_ne_zero.mp hfuel)
  unfold recvIter
  simp only []
  split_ifs
  · rfl
  · rfl
  · simp [runBatch, nlmsgOk, zeroHdrFrame, NLMSG_HDR_SIZE]

/-- Closed witness for C6 at `recvfrom` returning -1 (the failure
return). -/
theorem zero_or_negative_recv_yields_no_frames_witness :
    0 < 1 ∧ -(2 ^ 63 : Int) ≤ -1 ∧ (-1 : Int) ≤ 0 ∧
    recvIter engineZero procEx uZero 1 ⟨-1, [zeroHdrFrame]⟩ = .nextRecv [] :=
  ⟨by decide, by decide, by decide,
    zero_or_negative_recv_yields_no_frames engineZero procEx uZero 1 (-1)
      (by decide) (by decide) (by decide)⟩

/-! ## C7 -/

/-- C7: a frame whose event-kind discriminant is neither PROC_EVENT_UID
nor PROC_EVENT_GID is ignored by `cgre_handle_msg`: no reassignment
request is issued and `/proc/<pid>/status` is never opened
(`cgre_process_event` is not called at all). -/
theorem other_events_no_request_no_lookup
    (engine : Int → Int → Int → Int → Int)
    (proc : Int → Option (List (List Char))) (u : Uninit) (ev : ProcEvent)
    (h1 : ev.what ≠ PROC_EVENT_UID) (h2 : ev.what ≠ PROC_EVENT_GID) :
    (cgre_handle_msg engine proc u ev).requests = [] ∧
    (cgre_handle_msg engine proc u ev).lookupAttempted = false := by
  simp [cgre_handle_msg, h1, h2]

/-- A PROC_EVENT_FORK event (discriminant 1). -/
def evForkEx : ProcEvent := ⟨1, ⟨77, 77, 8, 9⟩⟩

/-- Closed witness for C7 at a fork event. -/
theorem other_events_no_request_no_lookup_witness :
    evForkEx.what ≠ PROC_EVENT_UID ∧ evForkEx.what ≠ PROC_EVENT_GID ∧
    (cgre_handle_msg engineZero procEx uZero evForkEx).requests = [] ∧
    (cgre_handle_msg engineZero procEx uZero evForkEx).lookupAttempted = false :=
  ⟨by decide, by decide,
    (other_events_no_request_no_lookup engineZero procEx uZero evForkEx
      (by decide) (by decide)).1,
    (other_events_no_request_no_lookup engineZero procEx uZero evForkEx
      (by decide) (by decide)).2⟩

/-! ## C8 -/

/-- C8: for an event whose target process's status record cannot be
opened (`fopen` fails), no reassignment request is issued and the call
returns 0, and the receive loop proceeds to the next frame exactly as it
would after a successful dispatch: the next loop step is the ordinary
advance to the following frame with the dropped event's (empty) result
accumulated. -/
theorem missing_status_drops_event_and_loop_continues
    (engine : Int → Int → Int → Int → Int)
    (proc : Int → Option (List (List Char))) (u : Uninit) (ev : ProcEvent)
    (hnone : proc ev.id.process_pid = none) :
    ((cgre_handle_msg engine proc u ev).requests = [] ∧
     (cgre_handle_msg engine proc u ev).ret = 0) ∧
    ∀ (fuel : Nat) (f : NlFrame) (rest : List NlFrame) (len : Nat)
      (acc : List ProcResult),
      f.event = ev → normalFrame f → nlmsgOk (f :: rest) len = true →
      runBatch engine proc u (fuel + 1) (f :: rest) len acc =
        runBatch engine proc u fuel rest (len - nlmsgAlign f.nlmsg_len)
          (cgre_handle_msg engine proc u ev :: acc) := by
  have hh : (cgre_handle_msg engine proc u ev).requests = [] ∧
      (cgre_handle_msg engine proc u ev).ret = 0 := by
    unfold cgre_handle_msg
    split_ifs <;> simp [cgre_process_event, hnone]
  refine ⟨hh, ?_⟩
  intro fuel f rest len acc hf hnorm hok
  have hret' : ¬ (cgre_handle_msg engine proc u ev).ret < 0 := by
    rw [hh.2]; omega
  simp only [runBatch, hok, if_true, hnorm.1, hnorm.2.1, hnorm.2.2.1,
    hnorm.2.2.2, or_self, ite_false, hf, hret']

/-- A UID event for a pid (999) with no status record in `procEx`. -/
def evDeadEx : ProcEvent := ⟨PROC_EVENT_UID, ⟨999, 999, 5, 6⟩⟩

/-- An ordinary-kind frame carrying the dead-pid event. -/
def frameDeadEx : NlFrame := ⟨76, 16, evDeadEx⟩

/-- Closed witness for C8 at pid 999, which `procEx` cannot open. -/
theorem missing_status_drops_event_and_loop_continues_witness :
    procEx evDeadEx.id.process_pid = none ∧
    (cgre_handle_msg engineZero procEx uZero evDeadEx).requests = [] ∧
    (cgre_handle_msg engineZero procEx uZero evDeadEx).ret = 0 ∧
    runBatch engineZero procEx uZero 2 [frameDeadEx, frameUidEx] 152 [] =
      runBatch engineZero procEx uZero 1 [frameUidEx]
        (152 - nlmsgAlign frameDeadEx.nlmsg_len)
        [cgre_handle_msg engineZero procEx uZero evDeadEx] :=
  ⟨by decide,
   (missing_status_drops_event_and_loop_continues engineZero procEx uZero
     evDeadEx (by decide)).1.1,
   (missing_status_drops_event_and_loop_continues engineZero procEx uZero
     evDeadEx (by decide)).1.2,
   (missing_status_drops_event_and_loop_continues engineZero procEx uZero
     evDeadEx (by decide)).2 1 frameDeadEx [frameUidEx] 152 []
     rfl (by decide) (by decide)⟩

/-! ## C9 -/

/-- C9: when the status record cannot be opened, `cgre_process_event`
returns 0 — the very value a fully successful dispatch returns (shown at
the C1 scenario, where a request is issued and the engine succeeds) — so
the caller cannot distinguish the two outcomes by the return code. -/
theorem unopenable_status_indistinguishable_from_success
    (engine : Int → Int → Int → Int → Int)
    (proc : Int → Option (List (List Char))) (u : Uninit) (ev : ProcEvent)
    (type : Nat) (hnone : proc ev.id.process_pid = none) :
    (cgre_process_event engine proc u ev type).ret = 0 ∧
    (cgre_process_event engineZero procEx uZero evUidEx PROC_EVENT_UID).ret
      = 0 ∧
    (cgre_process_event engineZero procEx uZero evUidEx
      PROC_EVENT_UID).requests ≠ [] := by
  refine ⟨?_, by decide, by decide⟩
  simp [cgre_process_event, hnone]

/-- Closed witness for C9 at pid 999. -/
theorem unopenable_status_indistinguishable_from_success_witness :
    procEx evDeadEx.id.process_pid = none ∧
    ((cgre_process_event engineZero procEx uZero evDeadEx
        PROC_EVENT_UID).ret = 0 ∧
     (cgre_process_event engineZero procEx uZero evUidEx
        PROC_EVENT_UID).ret = 0 ∧
     (cgre_process_event engineZero procEx uZero evUidEx
        PROC_EVENT_UID).requests ≠ []) :=
  ⟨by decide,
    unopenable_status_indistinguishable_from_success engineZero procEx uZero
      evDeadEx PROC_EVENT_UID (by decide)⟩

/-! ## C10 -/

/-- C10: the resolver parses only the FIRST line whose first four bytes
equal the expected label and stops scanning there: when the status record
is `pre ++ l :: post` with no label match in `pre` and `l` matching, the
four credential integers are exactly the `sscanf` of `l` (lines in `post`
— matching or not — are never examined), and the number of lines read is
`pre.length + 1`. -/
theorem resolver_uses_first_label_line
    (engine : Int → Int → Int → Int → Int)
    (proc : Int → Option (List (List Char))) (u : Uninit) (ev : ProcEvent)
    (pre : List (List Char)) (l : List Char) (post : List (List Char))
    (hproc : proc ev.id.process_pid = some (pre ++ l :: post)) :
    ((∀ l' ∈ pre, l'.take 4 ≠ ['G', 'i', 'd', ':']) →
      l.take 4 = ['G', 'i', 'd', ':'] →
      (cgre_process_event engine proc u ev PROC_EVENT_UID).linesRead =
          pre.length + 1 ∧
      (cgre_process_event engine proc u ev PROC_EVENT_UID).creds =
          sscanf4 (l.drop 5) u.rgid u.egid u.sgid u.fsgid) ∧
    ((∀ l' ∈ pre, l'.take 4 ≠ ['U', 'i', 'd', ':']) →
      l.take 4 = ['U', 'i', 'd', ':'] →
      (cgre_process_event engine proc u ev PROC_EVENT_GID).linesRead =
          pre.length + 1 ∧
      (cgre_process_event engine proc u ev PROC_EVENT_GID).creds =
          sscanf4 (l.drop 5) u.ruid u.euid u.suid u.fsuid) := by
  constructor
  · intro hpre hl
    have hscan := scanStatus_first_match ['G', 'i', 'd', ':'] pre l post hpre hl
    simp [cgre_process_event, hproc, hscan, PROC_EVENT_UID, PROC_EVENT_GID]
  · intro hpre hl
    have hscan := scanStatus_first_match ['U', 'i', 'd', ':'] pre l post hpre hl
    simp [cgre_process_event, hproc, hscan, PROC_EVENT_UID, PROC_EVENT_GID]

/-- A second Gid line with different integers, to witness that a later
matching line is ignored. -/
def gidLine2Ex : List Char := "Gid: 7 8 9 10".data

/-- A proc filesystem whose pid-100 record has TWO Gid lines. -/
def procTwoGidEx : Int → Option (List (List Char)) :=
  fun p => if p = 100 then some [gidLineEx, gidLine2Ex] else none

/-- Closed witness for C10: with two Gid lines present, the credentials
come from the first and exactly one line is read. -/
theorem resolver_uses_first_label_line_witness :
    procTwoGidEx 100 = some ([] ++ gidLineEx :: [gidLine2Ex]) ∧
    ((cgre_process_event engineZero procTwoGidEx uZero evUidEx
        PROC_EVENT_UID).linesRead = ([] : List (List Char)).length + 1 ∧
     (cgre_process_event engineZero procTwoGidEx uZero evUidEx
        PROC_EVENT_UID).creds =
       sscanf4 (gidLineEx.drop 5) uZero.rgid uZero.egid uZero.sgid
         uZero.fsgid) :=
  ⟨by rfl,
    (resolver_uses_first_label_line engineZero procTwoGidEx uZero evUidEx
      [] gidLineEx [gidLine2Ex] (by rfl)).1 (by simp) (by decide)⟩
